import Mathlib

/-!
Shallow embedding of the Red Roof Company BattleID backend (a CRUD HTTP API
over a PostgreSQL store) and proofs about its bootstrap routine, its resource
handlers and its error handling.

The embedding models:
* the id-sequence repair routine of the legacy variant (`ensureIdSequence`),
* the create-tables-if-absent bootstrap (`initTables`),
* the store (five tables) and every resource handler of the schema-rich
  variant, with per-statement fault injection for store-level failures,
* the legacy list handler,
* the JS event-loop ordering of the legacy startup script, and
* the token list of the CORS allow-list array literal.
-/

namespace BattleDB

/-! ### Id-sequence repair (legacy variant, `ensureIdSequence`)

State of the PostgreSQL sequence object `battle_ids_id_seq`: `start` is
`none` when the sequence object does not exist, and `some n` when the next
`nextval` call will produce `n`.  `boundDefault` records whether the id
column default is bound to `nextval` of the sequence. -/

structure SeqState where
  start : Option Int
  boundDefault : Bool
deriving DecidableEq

/-- `SELECT COALESCE(MAX(id), 0) FROM battle_ids`, over the list of ids. -/
def coalesceMaxId (ids : List Int) : Int :=
  (ids.max?).getD 0

/-- The `DO` block of `ensureIdSequence`: compute
`max_id = COALESCE(MAX(id),0) + 1`; if the sequence does not exist, create it
with `START max_id` and bind it as the id column default; otherwise
`ALTER SEQUENCE ... RESTART WITH max_id`. -/
def ensureIdSequence (ids : List Int) (st : SeqState) : SeqState :=
  let next := coalesceMaxId ids + 1
  match st.start with
  | none => { start := some next, boundDefault := true }
  | some _ => { st with start := some next }

/-- `nextval` on a sequence: yields the current value and advances. Fails
(`none`) when the sequence object does not exist. -/
def nextval (st : SeqState) : Option (Int × SeqState) :=
  st.start.map fun n => (n, { st with start := some (n + 1) })

/-! ### Create-tables-if-absent bootstrap (`initTables`) -/

/-- Which of the five tables exist in the store. -/
structure Schema where
  battle_ids_tbl : Bool
  commendations_tbl : Bool
  rank_changes_tbl : Bool
  awards_catalog_tbl : Bool
  awards_tbl : Bool
deriving DecidableEq

/-- `CREATE TABLE` against a table that is present or absent: with
`IF NOT EXISTS` the statement never fails; without it, it fails on a table
that already exists.  Returns the new presence of the table. -/
def createTable (ifNotExists : Bool) (present : Bool) : Except String Bool :=
  if present then
    if ifNotExists then Except.ok true else Except.error "relation already exists"
  else Except.ok true

/-- `initTables`: one `CREATE TABLE IF NOT EXISTS` per table, in dependency
order (battle_ids, commendations, rank_changes, awards_catalog, awards). -/
def initTables (s : Schema) : Except String Schema := do
  let b ← createTable true s.battle_ids_tbl
  let c ← createTable true s.commendations_tbl
  let r ← createTable true s.rank_changes_tbl
  let ac ← createTable true s.awards_catalog_tbl
  let a ← createTable true s.awards_tbl
  Except.ok ⟨b, c, r, ac, a⟩

/-- The fully initialized schema. -/
def fullSchema : Schema := ⟨true, true, true, true, true⟩

/-! ### The store: rows of the five tables (schema-rich variant)

Nullable text columns are `Option String`; `name` is `NOT NULL`; `id` and the
timestamp columns are `Nat`; `commendations_count` is an integer column. -/

structure Operative where
  id : Nat
  name : String
  callsign : Option String
  role : Option String
  rank : Option String
  specialty : Option String
  ethnicity : Option String
  dob : Option String
  strikes_level : Option String
  commendations_count : Int
  notes : Option String
  avatar : Option String
  status : Option String
  created_at : Nat
deriving DecidableEq

structure Commendation where
  id : Nat
  battle_id : Nat
  level : Nat
  notes : Option String
  created_at : Nat
deriving DecidableEq

structure RankChange where
  id : Nat
  battle_id : Nat
  change_type : String
  from_rank : Option String
  to_rank : Option String
  reason : Option String
  created_at : Nat
deriving DecidableEq

structure CatalogEntry where
  id : Nat
  code : Option String
  name : String
  description : Option String
  icon_url : Option String
deriving DecidableEq

structure AwardGrant where
  id : Nat
  battle_id : Nat
  award_id : Nat
  notes : Option String
  granted_at : Nat
deriving DecidableEq

/-- The relational store: the five tables, the next value of each `SERIAL`
id sequence, and the clock supplying `NOW()` timestamps. -/
structure Store where
  battle_ids : List Operative
  commendations : List Commendation
  rank_changes : List RankChange
  awards_catalog : List CatalogEntry
  awards : List AwardGrant
  battleSeq : Nat
  commendSeq : Nat
  rankSeq : Nat
  catalogSeq : Nat
  awardSeq : Nat
  clock : Nat
deriving DecidableEq

/-! ### HTTP responses and the per-request try/catch discipline -/

/-- A JSON response body, as produced by the handlers: `res.json(row)`,
`res.json(rows)`, `res.json(rows[0])` with no row (an empty body),
`res.json` of a success flag, or the error object sent from a `catch`. -/
inductive RespBody (α : Type) where
  | one (row : α)
  | many (rows : List α)
  | empty
  | success
  | errObj (msg : String)
deriving DecidableEq

structure HttpResp (α : Type) where
  status : Nat
  body : RespBody α
deriving DecidableEq

/-- Outcome of running one handler on one request: it sent a response, or an
exception escaped it (which would take down the request, and with no catch in
place the process). -/
inductive HandlerOutcome (α : Type) where
  | responded (resp : HttpResp α)
  | crashed (msg : String)
deriving DecidableEq

def isCrash : HandlerOutcome α → Bool
  | HandlerOutcome.crashed _ => true
  | HandlerOutcome.responded _ => false

/-- A store statement with connection-level fault injection: `fault = some m`
models the statement failing with message `m` (connection loss, type error at
the store boundary); otherwise the statement's own result stands. -/
def runQuery (fault : Option String) (q : Except String α) : Except String α :=
  match fault with
  | some m => Except.error m
  | none => q

/-- The `try ... catch (err) { res.status(500).json({ error: err.message }) }`
pattern shared by every resource handler of the schema-rich variant: on
success respond with `respond`, on a store failure keep the store as the
statement left it and respond 500 with the error message. -/
def tryCatchSt (st : Store) (act : Except String (α × Store))
    (respond : α → HttpResp β) : Store × HandlerOutcome β :=
  match act with
  | Except.ok (a, st1) => (st1, HandlerOutcome.responded (respond a))
  | Except.error m => (st, HandlerOutcome.responded { status := 500, body := RespBody.errObj m })

/-- `rows[0]` passed to `res.json`: the first row, or an empty body. -/
def rowsFirst : List α → RespBody α
  | [] => RespBody.empty
  | r :: _ => RespBody.one r

/-- JS `v || d` on an optional text body field: an absent field and the empty
string are falsy and give the default. -/
def jsOr (v : Option String) (d : String) : String :=
  match v with
  | none => d
  | some s => if s = "" then d else s

/-- The `strikes_level` check constraint. -/
def strikesEnum : List String := ["0", "1", "2", "3", "exterminato"]

def strikesOk : Option String → Bool
  | none => true
  | some s => strikesEnum.contains s

/-! ### Operative handlers (schema-rich variant, `/api/battle`) -/

/-- The JSON body destructured by the create and replace handlers. -/
structure BattleBody where
  name : Option String
  callsign : Option String
  role : Option String
  rank : Option String
  specialty : Option String
  ethnicity : Option String
  dob : Option String
  strikes_level : Option String
  notes : Option String
  avatar : Option String
  status : Option String
deriving DecidableEq

/-- `INSERT INTO battle_ids (...) VALUES (...) RETURNING *` with the given
`strikes_level` and `status` values: fails on a null `name` or an invalid
`strikes_level`; `id` comes from the sequence, `commendations_count` from its
column default, `created_at` from `NOW()`. -/
def insertBattle (st : Store) (b : BattleBody) (sl stt : Option String) :
    Except String (Operative × Store) :=
  match b.name with
  | none => Except.error "null value in column name violates not-null constraint"
  | some nm =>
    if strikesOk sl then
      let row : Operative :=
        { id := st.battleSeq, name := nm, callsign := b.callsign, role := b.role,
          rank := b.rank, specialty := b.specialty, ethnicity := b.ethnicity,
          dob := b.dob, strikes_level := sl, commendations_count := 0,
          notes := b.notes, avatar := b.avatar, status := stt, created_at := st.clock }
      Except.ok (row, { st with battle_ids := st.battle_ids ++ [row],
                                battleSeq := st.battleSeq + 1 })
    else Except.error "new row violates check constraint on strikes_level"

/-- `POST /api/battle`: insert with `strikes_level || '0'` and
`status || 'active'`, respond with the created row. -/
def postBattle (st : Store) (b : BattleBody) (fault : Option String) :
    Store × HandlerOutcome Operative :=
  tryCatchSt st
    (runQuery fault (insertBattle st b (some (jsOr b.strikes_level "0"))
      (some (jsOr b.status "active"))))
    fun row => { status := 200, body := RespBody.one row }

/-- `ORDER BY created_at DESC`. -/
def byCreatedDesc (a b : Operative) : Prop := b.created_at ≤ a.created_at

instance : DecidableRel byCreatedDesc :=
  fun a b => inferInstanceAs (Decidable (b.created_at ≤ a.created_at))

instance : IsTotal Operative byCreatedDesc :=
  ⟨fun a b => Nat.le_total b.created_at a.created_at⟩

instance : IsTrans Operative byCreatedDesc :=
  ⟨fun _ _ _ h1 h2 => Nat.le_trans h2 h1⟩

/-- `SELECT * FROM battle_ids ORDER BY created_at DESC`. -/
def selectBattleAll (st : Store) : List Operative :=
  List.insertionSort byCreatedDesc st.battle_ids

/-- `GET /api/battle`. -/
def getBattleList (st : Store) (fault : Option String) :
    Store × HandlerOutcome Operative :=
  tryCatchSt st (runQuery fault (Except.ok (selectBattleAll st, st)))
    fun rows => { status := 200, body := RespBody.many rows }

/-- `GET /api/battle/:id`: `SELECT * FROM battle_ids WHERE id = $1`, then
`res.json(result.rows[0])`. -/
def getBattleById (st : Store) (i : Nat) (fault : Option String) :
    Store × HandlerOutcome Operative :=
  tryCatchSt st
    (runQuery fault (Except.ok ((st.battle_ids.filter fun r => r.id == i), st)))
    fun rows => { status := 200, body := rowsFirst rows }

/-- The `SET` list of the replace handler applied to one matching row: every
column is overwritten from the body (`name` cannot become null,
`strikes_level` must satisfy its check constraint). -/
def putRow (b : BattleBody) (r : Operative) : Except String Operative :=
  match b.name with
  | none => Except.error "null value in column name violates not-null constraint"
  | some nm =>
    if strikesOk b.strikes_level then
      Except.ok { r with
        name := nm, callsign := b.callsign, role := b.role,
        rank := b.rank, specialty := b.specialty, ethnicity := b.ethnicity,
        dob := b.dob, strikes_level := b.strikes_level, notes := b.notes,
        avatar := b.avatar, status := b.status }
    else Except.error "new row violates check constraint on strikes_level"

/-- `UPDATE battle_ids SET ... WHERE id = $12 RETURNING *` over the table:
returns the new table and the updated rows. -/
def updateBattleRows (i : Nat) (b : BattleBody) :
    List Operative → Except String (List Operative × List Operative)
  | [] => Except.ok ([], [])
  | r :: rest => do
    let (rest1, updated) ← updateBattleRows i b rest
    if r.id == i then
      let r1 ← putRow b r
      Except.ok (r1 :: rest1, r1 :: updated)
    else
      Except.ok (r :: rest1, updated)

/-- `PUT /api/battle/:id`: full replace by id, respond with
`result.rows[0]` (empty body when no row matched). -/
def putBattle (st : Store) (i : Nat) (b : BattleBody) (fault : Option String) :
    Store × HandlerOutcome Operative :=
  tryCatchSt st
    (runQuery fault (do
      let (rows1, updated) ← updateBattleRows i b st.battle_ids
      Except.ok (updated, { st with battle_ids := rows1 })))
    fun updated => { status := 200, body := rowsFirst updated }

/-- `DELETE FROM battle_ids WHERE id = $1` with the `ON DELETE CASCADE`
clauses of the dependent tables. -/
def cascadeDelete (st : Store) (i : Nat) : Store :=
  if st.battle_ids.any (fun r => r.id == i) then
    { st with battle_ids := st.battle_ids.filter fun r => !(r.id == i),
              commendations := st.commendations.filter fun c => !(c.battle_id == i),
              rank_changes := st.rank_changes.filter fun rc => !(rc.battle_id == i),
              awards := st.awards.filter fun a => !(a.battle_id == i) }
  else st

/-- `DELETE /api/battle/:id`: respond with a success flag irrespective of
whether a row existed. -/
def deleteBattle (st : Store) (i : Nat) (fault : Option String) :
    Store × HandlerOutcome Operative :=
  tryCatchSt st (runQuery fault (Except.ok ((), cascadeDelete st i)))
    fun _ => { status := 200, body := RespBody.success }

/-! ### Award catalog, award grants, rank changes, commendations -/

/-- `ORDER BY id ASC` on the catalog. -/
def byCatalogIdAsc (a b : CatalogEntry) : Prop := a.id ≤ b.id

instance : DecidableRel byCatalogIdAsc :=
  fun a b => inferInstanceAs (Decidable (a.id ≤ b.id))

instance : IsTotal CatalogEntry byCatalogIdAsc :=
  ⟨fun a b => Nat.le_total a.id b.id⟩

instance : IsTrans CatalogEntry byCatalogIdAsc :=
  ⟨fun _ _ _ h1 h2 => Nat.le_trans h1 h2⟩

/-- `SELECT * FROM awards_catalog ORDER BY id ASC`. -/
def selectCatalog (st : Store) : List CatalogEntry :=
  List.insertionSort byCatalogIdAsc st.awards_catalog

/-- `GET /api/awards/catalog`. -/
def getCatalog (st : Store) (fault : Option String) :
    Store × HandlerOutcome CatalogEntry :=
  tryCatchSt st (runQuery fault (Except.ok (selectCatalog st, st)))
    fun rows => { status := 200, body := RespBody.many rows }

structure CatalogBody where
  code : Option String
  name : Option String
  description : Option String
  icon_url : Option String
deriving DecidableEq

/-- `INSERT INTO awards_catalog (code, name, description, icon_url) ...
RETURNING *`: `name` is `NOT NULL`, `code` is `UNIQUE` (null codes do not
conflict). -/
def insertCatalog (st : Store) (b : CatalogBody) :
    Except String (CatalogEntry × Store) :=
  match b.name with
  | none => Except.error "null value in column name violates not-null constraint"
  | some nm =>
    match b.code with
    | some c =>
      if st.awards_catalog.any (fun e => e.code == some c) then
        Except.error "duplicate key value violates unique constraint on code"
      else
        let row : CatalogEntry :=
          { id := st.catalogSeq, code := some c, name := nm,
            description := b.description, icon_url := b.icon_url }
        Except.ok (row, { st with awards_catalog := st.awards_catalog ++ [row],
                                  catalogSeq := st.catalogSeq + 1 })
    | none =>
      let row : CatalogEntry :=
        { id := st.catalogSeq, code := none, name := nm,
          description := b.description, icon_url := b.icon_url }
      Except.ok (row, { st with awards_catalog := st.awards_catalog ++ [row],
                                catalogSeq := st.catalogSeq + 1 })

/-- `POST /api/awards/catalog`. -/
def postCatalog (st : Store) (b : CatalogBody) (fault : Option String) :
    Store × HandlerOutcome CatalogEntry :=
  tryCatchSt st (runQuery fault (insertCatalog st b))
    fun row => { status := 200, body := RespBody.one row }

structure AwardBody where
  award_id : Option Nat
  notes : Option String
deriving DecidableEq

/-- `INSERT INTO awards (battle_id, award_id, notes) ... RETURNING *`: both
foreign keys must resolve. -/
def insertAward (st : Store) (bid : Nat) (b : AwardBody) :
    Except String (AwardGrant × Store) :=
  match b.award_id with
  | none => Except.error "null value in column award_id violates not-null constraint"
  | some aid =>
    if st.battle_ids.any (fun r => r.id == bid) then
      if st.awards_catalog.any (fun c => c.id == aid) then
        let row : AwardGrant :=
          { id := st.awardSeq, battle_id := bid, award_id := aid,
            notes := b.notes, granted_at := st.clock }
        Except.ok (row, { st with awards := st.awards ++ [row],
                                  awardSeq := st.awardSeq + 1 })
      else Except.error "insert violates foreign key constraint on award_id"
    else Except.error "insert violates foreign key constraint on battle_id"

/-- `POST /api/awards/:battle_id`. -/
def postAward (st : Store) (bid : Nat) (b : AwardBody) (fault : Option String) :
    Store × HandlerOutcome AwardGrant :=
  tryCatchSt st (runQuery fault (insertAward st bid b))
    fun row => { status := 200, body := RespBody.one row }

/-- One row of `SELECT a.*, c.name AS award_name, c.icon_url FROM awards a
JOIN awards_catalog c ON a.award_id = c.id`. -/
structure GrantRow where
  grant : AwardGrant
  award_name : String
  icon_url : Option String
deriving DecidableEq

/-- The inner join of the grants table with the catalog. -/
def joinCatalog (catalog : List CatalogEntry) : List AwardGrant → List GrantRow
  | [] => []
  | a :: rest =>
    (catalog.filter fun c => c.id == a.award_id).map
      (fun c => { grant := a, award_name := c.name, icon_url := c.icon_url })
    ++ joinCatalog catalog rest

/-- `ORDER BY granted_at DESC` on the joined rows. -/
def byGrantedDesc (a b : GrantRow) : Prop := b.grant.granted_at ≤ a.grant.granted_at

instance : DecidableRel byGrantedDesc :=
  fun a b => inferInstanceAs (Decidable (b.grant.granted_at ≤ a.grant.granted_at))

instance : IsTotal GrantRow byGrantedDesc :=
  ⟨fun a b => Nat.le_total b.grant.granted_at a.grant.granted_at⟩

instance : IsTrans GrantRow byGrantedDesc :=
  ⟨fun _ _ _ h1 h2 => Nat.le_trans h2 h1⟩

/-- The join, restricted to one operative and ordered by grant time
descending. -/
def selectAwardsFor (st : Store) (bid : Nat) : List GrantRow :=
  List.insertionSort byGrantedDesc
    ((joinCatalog st.awards_catalog st.awards).filter fun g => g.grant.battle_id == bid)

/-- `GET /api/awards/:battle_id`. -/
def getAwardsFor (st : Store) (bid : Nat) (fault : Option String) :
    Store × HandlerOutcome GrantRow :=
  tryCatchSt st (runQuery fault (Except.ok (selectAwardsFor st bid, st)))
    fun rows => { status := 200, body := RespBody.many rows }

structure RankChangeBody where
  change_type : Option String
  from_rank : Option String
  to_rank : Option String
  reason : Option String
deriving DecidableEq

/-- `INSERT INTO rank_changes (battle_id, change_type, from_rank, to_rank,
reason) ... RETURNING *`. -/
def insertRankChange (st : Store) (bid : Nat) (b : RankChangeBody) :
    Except String (RankChange × Store) :=
  match b.change_type with
  | none => Except.error "null value in column change_type violates not-null constraint"
  | some ct =>
    if st.battle_ids.any (fun r => r.id == bid) then
      if ct == "promotion" || ct == "demotion" then
        let row : RankChange :=
          { id := st.rankSeq, battle_id := bid, change_type := ct,
            from_rank := b.from_rank, to_rank := b.to_rank, reason := b.reason,
            created_at := st.clock }
        Except.ok (row, { st with rank_changes := st.rank_changes ++ [row],
                                  rankSeq := st.rankSeq + 1 })
      else Except.error "new row violates check constraint on change_type"
    else Except.error "insert violates foreign key constraint on battle_id"

/-- `POST /api/battle/:id/rank-change`. -/
def postRankChange (st : Store) (bid : Nat) (b : RankChangeBody) (fault : Option String) :
    Store × HandlerOutcome RankChange :=
  tryCatchSt st (runQuery fault (insertRankChange st bid b))
    fun row => { status := 200, body := RespBody.one row }

/-- The `level` check constraint of the commendations table. -/
def levelOk (level : Nat) : Bool :=
  level == 1 || level == 2 || level == 3

/-- `INSERT INTO commendations (battle_id, level, notes) ... RETURNING *`. -/
def insertCommendation (st : Store) (bid level : Nat) (notes : Option String) :
    Except String (Commendation × Store) :=
  if st.battle_ids.any (fun r => r.id == bid) then
    if levelOk level then
      let row : Commendation :=
        { id := st.commendSeq, battle_id := bid, level := level,
          notes := notes, created_at := st.clock }
      Except.ok (row, { st with commendations := st.commendations ++ [row],
                                commendSeq := st.commendSeq + 1 })
    else Except.error "new row violates check constraint on level"
  else Except.error "insert violates foreign key constraint on battle_id"

/-- Effect of the counter update on one row: rows whose id matches get their
count incremented, all others are untouched. -/
def bumpRow (bid : Nat) (r : Operative) : Operative :=
  if r.id == bid then { r with commendations_count := r.commendations_count + 1 }
  else r

/-- `UPDATE battle_ids SET commendations_count = commendations_count + 1
WHERE id = $1`. -/
def bumpCount (st : Store) (bid : Nat) : Store :=
  { st with battle_ids := st.battle_ids.map (bumpRow bid) }

/-- `POST /api/battle/:id/commendation`: two statements inside one
try/catch and no transaction — insert the commendation, then bump the
counter; respond with the created commendation row.  A failure of the second
statement is caught, responds 500, and leaves the inserted row in place. -/
def postCommendation (st : Store) (bid level : Nat) (notes : Option String)
    (fault1 fault2 : Option String) : Store × HandlerOutcome Commendation :=
  match runQuery fault1 (insertCommendation st bid level notes) with
  | Except.error m => (st, HandlerOutcome.responded { status := 500, body := RespBody.errObj m })
  | Except.ok (row, st1) =>
    match runQuery fault2 (Except.ok (bumpCount st1 bid)) with
    | Except.error m => (st1, HandlerOutcome.responded { status := 500, body := RespBody.errObj m })
    | Except.ok st2 => (st2, HandlerOutcome.responded { status := 200, body := RespBody.one row })

/-! ### Health check and the legacy variant -/

/-- Response of `GET /`: `SELECT NOW()` and report reachability in the body,
not the status code — both branches call plain `res.json`, so the status is
200 either way. -/
structure HealthResp where
  status : Nat
  db : Bool
  error : Option String
deriving DecidableEq

def healthHandler (fault : Option String) : HealthResp :=
  match runQuery fault (Except.ok ()) with
  | Except.ok _ => { status := 200, db := true, error := none }
  | Except.error m => { status := 200, db := false, error := some m }

/-- A row of the legacy `battle_ids` table (columns as used by the legacy
handlers). -/
structure LegacyOperative where
  id : Nat
  name : String
  callsign : Option String
  role : Option String
  status : Option String
  strikes : Int
  avatar : Option String
  notes : Option String
deriving DecidableEq

/-- Legacy `ORDER BY id DESC`. -/
def byLegacyIdDesc (a b : LegacyOperative) : Prop := b.id ≤ a.id

instance : DecidableRel byLegacyIdDesc :=
  fun a b => inferInstanceAs (Decidable (b.id ≤ a.id))

instance : IsTotal LegacyOperative byLegacyIdDesc :=
  ⟨fun a b => Nat.le_total b.id a.id⟩

instance : IsTrans LegacyOperative byLegacyIdDesc :=
  ⟨fun _ _ _ h1 h2 => Nat.le_trans h2 h1⟩

/-- Legacy `SELECT * FROM battle_ids ORDER BY id DESC`. -/
def legacySelectAll (rows : List LegacyOperative) : List LegacyOperative :=
  List.insertionSort byLegacyIdDesc rows

/-- Legacy `GET /api/battle`: on failure the catch sends a fixed message. -/
def legacyGetBattleList (rows : List LegacyOperative) (fault : Option String) :
    HandlerOutcome LegacyOperative :=
  match runQuery fault (Except.ok (legacySelectAll rows)) with
  | Except.ok rs => HandlerOutcome.responded { status := 200, body := RespBody.many rs }
  | Except.error _ =>
    HandlerOutcome.responded { status := 500, body := RespBody.errObj "Chyba při načítání dat" }

/-! ### Legacy startup ordering

The legacy top-level script calls the async `ensureIdSequence()` without
awaiting it and then calls `app.listen`.  A JS async function runs
synchronously up to its first `await` and its continuation is scheduled to
run only after the awaited promise resolves, which cannot happen before the
synchronous top-level script has finished. -/

inductive StartupEvent where
  | repairStarted
  | listenCalled
  | repairCompleted
deriving DecidableEq, BEq

/-- One top-level statement: a synchronous statement, or a call of an async
function that performs `upToAwait` synchronously and schedules `afterAwait`
behind its first awaited query. -/
inductive ScriptStmt where
  | sync (e : StartupEvent)
  | callAsync (upToAwait afterAwait : List StartupEvent)

/-- Run the synchronous top-level script, collecting the events it performs
and the scheduled continuations (in scheduling order). -/
def runScript : List ScriptStmt → List StartupEvent × List (List StartupEvent)
  | [] => ([], [])
  | ScriptStmt.sync e :: rest =>
    let (t, p) := runScript rest
    (e :: t, p)
  | ScriptStmt.callAsync b a :: rest =>
    let (t, p) := runScript rest
    (b ++ t, a :: p)

/-- The event loop: the synchronous script first, then the scheduled
continuations. -/
def eventLoopTrace (script : List ScriptStmt) : List StartupEvent :=
  let (t, p) := runScript script
  t ++ p.flatten

/-- `ensureIdSequence(); ... app.listen(PORT, ...)` of the legacy source. -/
def legacyStartupScript : List ScriptStmt :=
  [ScriptStmt.callAsync [StartupEvent.repairStarted] [StartupEvent.repairCompleted],
   ScriptStmt.sync StartupEvent.listenCalled]

def legacyStartupTrace : List StartupEvent :=
  eventLoopTrace legacyStartupScript

/-! ### The CORS allow-list array literal

The `allowedOrigins` array literal of the schema-rich source, token by token.
In a JavaScript array literal two expressions must be separated by a comma;
two adjacent string literals are a syntax error, so a token list in which a
string literal directly follows a string literal does not parse and the
module fails to load. -/

inductive JsTok where
  | strLit (s : String)
  | comma
deriving DecidableEq

/-- The items between the brackets of `const allowedOrigins = [...]`, in
source order: the comma between the second and third entries is absent in
the source. -/
def allowedOriginsArrayTokens : List JsTok :=
  [JsTok.strLit "https://redroofcomp.up.railway.app",
   JsTok.comma,
   JsTok.strLit "http://localhost:3000",
   JsTok.strLit "database4-production.up.railway.app"]

/-- A JS array-literal element list parses exactly when no two expression
tokens are adjacent without a separating comma. -/
def commaSeparated : List JsTok → Bool
  | JsTok.strLit _ :: JsTok.strLit _ :: _ => false
  | _ :: rest => commaSeparated rest
  | [] => true

/-! ### Derived rows and concrete instances used in the theorems -/

/-- The commendation row created by a successful grant against store `st`. -/
def stepRow (st : Store) (bid level : Nat) (notes : Option String) : Commendation :=
  { id := st.commendSeq, battle_id := bid, level := level,
    notes := notes, created_at := st.clock }

/-- The operative row created by a successful `POST /api/battle` against
store `st` with body `b` whose name field holds `nm`. -/
def createdRow (st : Store) (b : BattleBody) (nm : String) : Operative :=
  { id := st.battleSeq, name := nm, callsign := b.callsign, role := b.role,
    rank := b.rank, specialty := b.specialty, ethnicity := b.ethnicity,
    dob := b.dob, strikes_level := some (jsOr b.strikes_level "0"),
    commendations_count := 0, notes := b.notes, avatar := b.avatar,
    status := some (jsOr b.status "active"), created_at := st.clock }

/-- Iterate the grant operation `N` times against one operative. -/
def grantN (st : Store) (bid level : Nat) (notes : Option String) : Nat → Store
  | 0 => st
  | n + 1 => (postCommendation (grantN st bid level notes n) bid level notes none none).1

/-- The stored commendations count of operative `bid`, read off the first row
with that id. -/
def countOf (st : Store) (bid : Nat) : Option Int :=
  (st.battle_ids.find? fun r => r.id == bid).map fun r => r.commendations_count

/-- The commendation rows owned by operative `bid`. -/
def commendationsOf (st : Store) (bid : Nat) : List Commendation :=
  st.commendations.filter fun c => c.battle_id == bid

/-- A batch of independent `GET /api/battle/:id` requests (id and injected
fault per request), each handled against the same store. -/
def processGetRequests (st : Store) (reqs : List (Nat × Option String)) :
    List (HandlerOutcome Operative) :=
  reqs.map fun q => (getBattleById st q.1 q.2).2

/-- An empty store, sequences at 1. -/
def wStore : Store := ⟨[], [], [], [], [], 1, 1, 1, 1, 1, 0⟩

/-- A request body with only the name supplied. -/
def wBody : BattleBody :=
  ⟨some "X", none, none, none, none, none, none, none, none, none, none⟩

/-- A request body supplying `status` as the empty string. -/
def cexBody : BattleBody :=
  ⟨some "X", none, none, none, none, none, none, none, none, none, some ""⟩

/-- A store holding one operative (id 1) with commendations count 0. -/
def wOperative : Operative :=
  ⟨1, "A", none, none, none, none, none, none, some "0", 0, none, none, some "active", 0⟩

def w2Store : Store := ⟨[wOperative], [], [], [], [], 2, 1, 1, 1, 1, 5⟩

/-- A store with one catalog entry and two grants for operative 7. -/
def w4Store : Store :=
  ⟨[], [], [], [⟨1, none, "Star", none, none⟩],
   [⟨1, 7, 1, none, 3⟩, ⟨2, 7, 1, none, 9⟩], 1, 1, 1, 2, 3, 0⟩

/-- The commendation row a grant against `w2Store` inserts. -/
def w10Row : Commendation := ⟨1, 1, 2, none, 5⟩

/-- `w2Store` right after that insert, before the counter update. -/
def w10Store : Store := { w2Store with commendations := [w10Row], commendSeq := 2 }

/-! ## Theorems -/

/-- C1: the sequence-repair routine sets the generator to
`max(existing id) + 1` over all rows — in the branch where the generator does
not yet exist (created at `next` and bound as the id column default) and in
the branch where it does (restarted at `next`) — so that the next generated
id is `max + 1`: 8 for ids 3, 7, 2 and 1 for an empty table. -/
theorem ensureIdSequence_sets_next :
    (∀ ids restOfState, ensureIdSequence ids ⟨none, restOfState⟩ =
      ⟨some (coalesceMaxId ids + 1), true⟩)
    ∧ (∀ ids n restOfState, ensureIdSequence ids ⟨some n, restOfState⟩ =
      ⟨some (coalesceMaxId ids + 1), restOfState⟩)
    ∧ (nextval (ensureIdSequence [3, 7, 2] ⟨none, false⟩)).map Prod.fst = some 8
    ∧ (nextval (ensureIdSequence [3, 7, 2] ⟨some 4, true⟩)).map Prod.fst = some 8
    ∧ (nextval (ensureIdSequence [] ⟨none, false⟩)).map Prod.fst = some 1
    ∧ (nextval (ensureIdSequence [] ⟨some 9, true⟩)).map Prod.fst = some 1 := by
  refine ⟨fun ids b => rfl, fun ids n b => rfl, ?_, ?_, ?_, ?_⟩ <;> decide

/-- C6: the bootstrap is idempotent — `initTables` always succeeds and
yields the full schema, so a second run against an already-initialized store
raises no error and changes nothing; and running the sequence repair twice
with no intervening inserts gives the same generator state as running it
once. -/
theorem bootstrap_idempotent :
    (∀ s : Schema, initTables s = Except.ok fullSchema)
    ∧ initTables fullSchema = Except.ok fullSchema
    ∧ (∀ ids st, ensureIdSequence ids (ensureIdSequence ids st) = ensureIdSequence ids st) := by
  refine ⟨?_, rfl, ?_⟩
  · rintro ⟨b1, b2, b3, b4, b5⟩
    cases b1 <;> cases b2 <;> cases b3 <;> cases b4 <;> cases b5 <;> rfl
  · rintro ids ⟨start, bound⟩
    cases start <;> rfl

/-- C7 counterexample: in the legacy startup, `app.listen` is called before
the repair's awaited statement can resolve — the repair does not complete
before traffic is accepted, refuting the claim. -/
theorem legacyStartup_repair_not_before_listen :
    ¬ legacyStartupTrace.indexOf StartupEvent.repairCompleted <
        legacyStartupTrace.indexOf StartupEvent.listenCalled := by
  decide

/-- C7 amended: the sequence repair is started exactly once at startup and is
started before `app.listen` is called, but the server starts listening before
the repair completes (the call is not awaited). -/
theorem legacyStartup_order :
    legacyStartupTrace.count StartupEvent.repairStarted = 1
    ∧ legacyStartupTrace.indexOf StartupEvent.repairStarted <
        legacyStartupTrace.indexOf StartupEvent.listenCalled
    ∧ legacyStartupTrace.indexOf StartupEvent.listenCalled <
        legacyStartupTrace.indexOf StartupEvent.repairCompleted := by
  decide

/-- C9: the `allowedOrigins` array literal does not parse — the comma between
the second and third string literals is missing, so two string literals are
adjacent and loading the module is a syntax error; the CORS middleware never
runs. -/
theorem allowedOrigins_literal_invalid :
    commaSeparated allowedOriginsArrayTokens = false := rfl

/-- `UPDATE ... WHERE id = i` over rows none of which match: the table is
unchanged and no row is returned. -/
theorem updateBattleRows_no_match (i : Nat) (b : BattleBody) :
    ∀ l : List Operative, l.any (fun r => r.id == i) = false →
      updateBattleRows i b l = Except.ok (l, []) := by
  intro l
  induction l with
  | nil => intro _; rfl
  | cons r rest ih =>
    intro h
    rw [List.any_cons, Bool.or_eq_false_iff] at h
    simp only [updateBattleRows, ih h.2, h.1, Bool.false_eq_true, if_false]
    rfl

/-- C5: for an id matching no stored operative, get-by-id responds 200 with
an empty payload, update (PUT) responds 200 with an empty payload and
neither creates nor modifies any row, and delete responds with a success
flag — none of the three surfaces not-found as an error. -/
theorem notfound_is_success (st : Store) (i : Nat) (b : BattleBody)
    (h : st.battle_ids.any (fun r => r.id == i) = false) :
    getBattleById st i none =
      (st, HandlerOutcome.responded ⟨200, RespBody.empty⟩)
    ∧ putBattle st i b none =
      (st, HandlerOutcome.responded ⟨200, RespBody.empty⟩)
    ∧ deleteBattle st i none =
      (st, HandlerOutcome.responded ⟨200, RespBody.success⟩) := by
  have hfil : st.battle_ids.filter (fun r => r.id == i) = [] := by
    rw [List.filter_eq_nil_iff]
    intro a ha
    have := List.any_eq_false.mp h a ha
    simpa using this
  refine ⟨?_, ?_, ?_⟩
  · simp [getBattleById, tryCatchSt, runQuery, hfil, rowsFirst]
  · simp [putBattle, tryCatchSt, runQuery, updateBattleRows_no_match i b st.battle_ids h,
      rowsFirst, bind, Except.bind]
  · simp [deleteBattle, tryCatchSt, runQuery, cascadeDelete, h]

/-- C5 witness: the not-found behaviors at the empty store and id 5. -/
theorem notfound_is_success_witness :
    getBattleById wStore 5 none =
      (wStore, HandlerOutcome.responded ⟨200, RespBody.empty⟩)
    ∧ putBattle wStore 5 wBody none =
      (wStore, HandlerOutcome.responded ⟨200, RespBody.empty⟩)
    ∧ deleteBattle wStore 5 none =
      (wStore, HandlerOutcome.responded ⟨200, RespBody.success⟩) :=
  notfound_is_success wStore 5 wBody (by decide)

/-- C3 counterexample: a create request that supplies `status` as the empty
string does not get it stored as supplied — the JS `||` default replaces any
falsy supplied value, so the stored and returned row carries "active". -/
theorem create_supplied_falsy_status_replaced :
    cexBody.status = some ""
    ∧ (postBattle wStore cexBody none).2 =
        HandlerOutcome.responded ⟨200, RespBody.one (createdRow wStore cexBody "X")⟩
    ∧ (createdRow wStore cexBody "X").status = some "active"
    ∧ ¬ (createdRow wStore cexBody "X").status = cexBody.status := by
  refine ⟨rfl, by decide, rfl, by decide⟩

/-- C3 amended: a create request with `strikes_level` omitted stores "0" and
with `status` omitted stores "active"; fields supplied with a truthy
(non-empty) value are stored as supplied — but a supplied falsy value (the
empty string) for `strikes_level` or `status` is replaced by the default as
if it had been omitted. -/
theorem create_defaults (st : Store) (b : BattleBody) (nm : String)
    (hname : b.name = some nm)
    (hstrikes : strikesOk (some (jsOr b.strikes_level "0")) = true) :
    postBattle st b none =
      ({ st with battle_ids := st.battle_ids ++ [createdRow st b nm],
                 battleSeq := st.battleSeq + 1 },
       HandlerOutcome.responded ⟨200, RespBody.one (createdRow st b nm)⟩)
    ∧ (b.strikes_level = none → (createdRow st b nm).strikes_level = some "0")
    ∧ (b.status = none → (createdRow st b nm).status = some "active")
    ∧ (∀ s, b.strikes_level = some s → ¬ s = "" →
        (createdRow st b nm).strikes_level = some s)
    ∧ (∀ s, b.status = some s → ¬ s = "" → (createdRow st b nm).status = some s)
    ∧ (createdRow st b nm).name = nm
    ∧ (createdRow st b nm).callsign = b.callsign
    ∧ (createdRow st b nm).role = b.role
    ∧ (createdRow st b nm).rank = b.rank
    ∧ (createdRow st b nm).specialty = b.specialty
    ∧ (createdRow st b nm).ethnicity = b.ethnicity
    ∧ (createdRow st b nm).dob = b.dob
    ∧ (createdRow st b nm).notes = b.notes
    ∧ (createdRow st b nm).avatar = b.avatar := by
  refine ⟨?_, ?_, ?_, ?_, ?_, rfl, rfl, rfl, rfl, rfl, rfl, rfl, rfl, rfl⟩
  · simp [postBattle, insertBattle, hname, hstrikes, tryCatchSt, runQuery, createdRow]
  · intro h; simp [createdRow, jsOr, h]
  · intro h; simp [createdRow, jsOr, h]
  · intro s hs hne; simp [createdRow, jsOr, hs, hne]
  · intro s hs hne; simp [createdRow, jsOr, hs, hne]

/-- C3 amended, witness: a body supplying only the name gets both defaults
and the created row is returned and stored. -/
theorem create_defaults_witness :
    postBattle wStore wBody none =
      ({ wStore with battle_ids := [createdRow wStore wBody "X"], battleSeq := 2 },
       HandlerOutcome.responded ⟨200, RespBody.one (createdRow wStore wBody "X")⟩)
    ∧ (createdRow wStore wBody "X").strikes_level = some "0"
    ∧ (createdRow wStore wBody "X").status = some "active" :=
  ⟨(create_defaults wStore wBody "X" rfl (by decide)).1,
   (create_defaults wStore wBody "X" rfl (by decide)).2.1 rfl,
   (create_defaults wStore wBody "X" rfl (by decide)).2.2.1 rfl⟩

/-- Projecting the inner join back to the grants: when every grant's
`award_id` matches exactly one catalog entry, the join has one row per grant
in order. -/
theorem joinCatalog_map_grant (catalog : List CatalogEntry) :
    ∀ awards : List AwardGrant,
      (∀ a ∈ awards, (catalog.filter fun c => c.id == a.award_id).length = 1) →
      (joinCatalog catalog awards).map (fun g => g.grant) = awards := by
  intro awards
  induction awards with
  | nil => intro _; rfl
  | cons a rest ih =>
    intro h
    obtain ⟨c, hc⟩ := List.length_eq_one.mp (h a (List.mem_cons_self a rest))
    simp [joinCatalog, hc, ih fun x hx => h x (List.mem_cons_of_mem a hx)]

/-- Filtering joined rows on a grant attribute commutes with projecting to
the grant. -/
theorem filter_grant_map (p : AwardGrant → Bool) :
    ∀ l : List GrantRow,
      (l.filter fun g => p g.grant).map (fun g => g.grant) =
        (l.map fun g => g.grant).filter p := by
  intro l
  induction l with
  | nil => rfl
  | cons g rest ih => cases hp : p g.grant <;> simp [List.filter_cons, hp, ih]

/-- C4: listing operatives returns the whole table ordered by creation time
descending (by id descending in the legacy variant), the award catalog is
listed ascending by id, and an operative's grants are listed descending by
grant time, each through the corresponding handler. -/
theorem listings_ordered (st : Store) (lrows : List LegacyOperative) (bid : Nat)
    (hcat : ∀ a ∈ st.awards,
      (st.awards_catalog.filter fun c => c.id == a.award_id).length = 1) :
    List.Perm (selectBattleAll st) st.battle_ids
    ∧ List.Sorted byCreatedDesc (selectBattleAll st)
    ∧ (getBattleList st none).2 =
        HandlerOutcome.responded ⟨200, RespBody.many (selectBattleAll st)⟩
    ∧ List.Perm (legacySelectAll lrows) lrows
    ∧ List.Sorted byLegacyIdDesc (legacySelectAll lrows)
    ∧ legacyGetBattleList lrows none =
        HandlerOutcome.responded ⟨200, RespBody.many (legacySelectAll lrows)⟩
    ∧ List.Perm (selectCatalog st) st.awards_catalog
    ∧ List.Sorted byCatalogIdAsc (selectCatalog st)
    ∧ (getCatalog st none).2 =
        HandlerOutcome.responded ⟨200, RespBody.many (selectCatalog st)⟩
    ∧ List.Perm ((selectAwardsFor st bid).map fun g => g.grant)
        (st.awards.filter fun a => a.battle_id == bid)
    ∧ List.Sorted byGrantedDesc (selectAwardsFor st bid)
    ∧ (getAwardsFor st bid none).2 =
        HandlerOutcome.responded ⟨200, RespBody.many (selectAwardsFor st bid)⟩ := by
  refine ⟨List.perm_insertionSort _ _, List.sorted_insertionSort _ _, rfl,
          List.perm_insertionSort _ _, List.sorted_insertionSort _ _, rfl,
          List.perm_insertionSort _ _, List.sorted_insertionSort _ _, rfl,
          ?_, List.sorted_insertionSort _ _, rfl⟩
  have h1 : List.Perm (selectAwardsFor st bid)
      ((joinCatalog st.awards_catalog st.awards).filter
        fun g => g.grant.battle_id == bid) :=
    List.perm_insertionSort _ _
  have h2 := h1.map fun g => g.grant
  have h3 := filter_grant_map (fun a => a.battle_id == bid)
    (joinCatalog st.awards_catalog st.awards)
  rw [h3, joinCatalog_map_grant st.awards_catalog st.awards hcat] at h2
  exact h2

/-- C4 witness: the grant listing at a concrete store with one catalog entry
and two grants for operative 7, and the operative listing there. -/
theorem listings_ordered_witness :
    List.Perm ((selectAwardsFor w4Store 7).map fun g => g.grant)
      (w4Store.awards.filter fun a => a.battle_id == 7)
    ∧ List.Sorted byGrantedDesc (selectAwardsFor w4Store 7)
    ∧ List.Perm (selectBattleAll w4Store) w4Store.battle_ids :=
  ⟨(listings_ordered w4Store [] 7 (by decide)).2.2.2.2.2.2.2.2.2.1,
   (listings_ordered w4Store [] 7 (by decide)).2.2.2.2.2.2.2.2.2.2.1,
   (listings_ordered w4Store [] 7 (by decide)).1⟩

/-- The counter update does not change any row's id. -/
theorem bumpRow_id (bid : Nat) (r : Operative) : (bumpRow bid r).id = r.id := by
  unfold bumpRow; split <;> rfl

/-- `find?` on an id commutes with the counter update. -/
theorem find_map_bumpRow (bid : Nat) :
    ∀ l : List Operative,
      (l.map (bumpRow bid)).find? (fun r => r.id == bid) =
        (l.find? fun r => r.id == bid).map (bumpRow bid) := by
  intro l
  induction l with
  | nil => rfl
  | cons r rest ih =>
    simp only [List.map_cons, List.find?, bumpRow_id]
    cases h : (r.id == bid) with
    | true => simp [h]
    | false => simp [h, ih]

/-- Membership by id survives the counter update. -/
theorem any_map_bumpRow (bid : Nat) :
    ∀ l : List Operative,
      (l.map (bumpRow bid)).any (fun r => r.id == bid) =
        l.any (fun r => r.id == bid) := by
  intro l
  induction l with
  | nil => rfl
  | cons r rest ih => simp [List.any_cons, bumpRow_id, ih]

/-- The counter update adds exactly 1 to the stored count read by id. -/
theorem countOf_bumpCount (st : Store) (bid : Nat) :
    countOf (bumpCount st bid) bid = (countOf st bid).map fun n => n + 1 := by
  show ((st.battle_ids.map (bumpRow bid)).find? (fun r => r.id == bid)).map
      (fun r => r.commendations_count)
    = ((st.battle_ids.find? (fun r => r.id == bid)).map
        (fun r => r.commendations_count)).map (fun n => n + 1)
  rw [find_map_bumpRow bid st.battle_ids]
  cases hfind : st.battle_ids.find? (fun r => r.id == bid) with
  | none => rfl
  | some r =>
    have hp := List.find?_some hfind
    simp [bumpRow, hp]

/-- The grant's two statements, both succeeding: the commendation row is
appended, the counter bumped, and the created commendation row is the
response. -/
theorem postCommendation_success (st : Store) (bid level : Nat) (notes : Option String)
    (hmem : st.battle_ids.any (fun r => r.id == bid) = true)
    (hlevel : levelOk level = true) :
    postCommendation st bid level notes none none =
      (bumpCount { st with
          commendations := st.commendations ++ [stepRow st bid level notes],
          commendSeq := st.commendSeq + 1 } bid,
       HandlerOutcome.responded ⟨200, RespBody.one (stepRow st bid level notes)⟩) := by
  simp [postCommendation, runQuery, insertCommendation, hmem, hlevel, stepRow]

/-- Reading the count only looks at the operatives table, which the insert
into the commendations table leaves alone; the update then adds 1. -/
theorem countOf_bump_insert (st : Store) (bid : Nat) (row : Commendation) (k : Nat) :
    countOf (bumpCount { st with
      commendations := st.commendations ++ [row],
      commendSeq := k } bid) bid = (countOf st bid).map fun n => n + 1 :=
  countOf_bumpCount { st with
    commendations := st.commendations ++ [row],
    commendSeq := k } bid

/-- Membership by id after the grant's two statements. -/
theorem any_bump_insert (st : Store) (bid : Nat) (row : Commendation) (k : Nat) :
    ((bumpCount { st with
        commendations := st.commendations ++ [row],
        commendSeq := k } bid).battle_ids.any fun r => r.id == bid) =
      (st.battle_ids.any fun r => r.id == bid) :=
  any_map_bumpRow bid st.battle_ids

/-- The commendations owned by `bid` after the grant's two statements: the
old ones plus the created row. -/
theorem commendationsOf_bump_insert (st : Store) (bid : Nat) (row : Commendation)
    (k : Nat) (hrow : (row.battle_id == bid) = true) :
    commendationsOf (bumpCount { st with
      commendations := st.commendations ++ [row],
      commendSeq := k } bid) bid = commendationsOf st bid ++ [row] := by
  show (st.commendations ++ [row]).filter (fun c => c.battle_id == bid) = _
  simp [commendationsOf, List.filter_append, hrow]

/-- C2: starting from a state where operative `bid` exists with
commendations count 0 and owns no commendation rows, `N` grant invocations
leave the stored count at `N` and exactly `N` commendation rows owned by
`bid`; each invocation appends exactly one commendation row, raises the
count by exactly 1, and responds with the created commendation row (a
commendations-table row, not the updated operative). -/
theorem commendation_grant_counts (st : Store) (bid level : Nat) (notes : Option String)
    (hmem : st.battle_ids.any (fun r => r.id == bid) = true)
    (hcount : countOf st bid = some 0)
    (hrows : commendationsOf st bid = [])
    (hlevel : levelOk level = true) :
    ∀ N : Nat,
      countOf (grantN st bid level notes N) bid = some (N : Int)
      ∧ (commendationsOf (grantN st bid level notes N) bid).length = N
      ∧ postCommendation (grantN st bid level notes N) bid level notes none none =
          (grantN st bid level notes (N + 1),
           HandlerOutcome.responded
             ⟨200, RespBody.one (stepRow (grantN st bid level notes N) bid level notes)⟩)
      ∧ (grantN st bid level notes (N + 1)).commendations.length =
          (grantN st bid level notes N).commendations.length + 1
      ∧ countOf (grantN st bid level notes (N + 1)) bid = some ((N : Int) + 1) := by
  have hrowbid : ∀ s : Store, ((stepRow s bid level notes).battle_id == bid) = true := by
    intro s; simp [stepRow]
  have inv : ∀ N : Nat,
      (grantN st bid level notes N).battle_ids.any (fun r => r.id == bid) = true
      ∧ countOf (grantN st bid level notes N) bid = some (N : Int)
      ∧ (commendationsOf (grantN st bid level notes N) bid).length = N := by
    intro N
    induction N with
    | zero => exact ⟨hmem, by simpa using hcount, by simp [grantN, hrows]⟩
    | succ n ih =>
      obtain ⟨ihmem, ihcount, ihlen⟩ := ih
      have hstep := postCommendation_success (grantN st bid level notes n)
        bid level notes ihmem hlevel
      have e1 : grantN st bid level notes (n + 1) =
          (postCommendation (grantN st bid level notes n) bid level notes none none).1 := rfl
      refine ⟨?_, ?_, ?_⟩
      · rw [e1, hstep]
        exact (any_bump_insert _ bid _ _).trans ihmem
      · rw [e1, hstep]
        show countOf (bumpCount _ bid) bid = _
        rw [countOf_bump_insert, ihcount]
        simp
      · rw [e1, hstep]
        show (commendationsOf (bumpCount _ bid) bid).length = _
        rw [commendationsOf_bump_insert _ bid _ _ (hrowbid _)]
        simp [ihlen]
  intro N
  obtain ⟨hm, hc, hl⟩ := inv N
  obtain ⟨_, hc1, _⟩ := inv (N + 1)
  have hstep := postCommendation_success (grantN st bid level notes N)
    bid level notes hm hlevel
  have e1 : grantN st bid level notes (N + 1) =
      (postCommendation (grantN st bid level notes N) bid level notes none none).1 := rfl
  refine ⟨hc, hl, ?_, ?_, ?_⟩
  · rw [e1, hstep]
  · rw [e1, hstep]
    show ((grantN st bid level notes N).commendations ++ [_]).length = _
    simp
  · rw [show ((N : Int) + 1) = ((N + 1 : Nat) : Int) by push_cast; ring]
    exact hc1

/-- C2 witness: three grants against a store holding one operative with
count 0 and no commendation rows. -/
theorem commendation_grant_counts_witness :
    countOf (grantN w2Store 1 2 none 3) 1 = some 3
    ∧ (commendationsOf (grantN w2Store 1 2 none 3) 1).length = 3
    ∧ postCommendation (grantN w2Store 1 2 none 3) 1 2 none none none =
        (grantN w2Store 1 2 none 4,
         HandlerOutcome.responded
           ⟨200, RespBody.one (stepRow (grantN w2Store 1 2 none 3) 1 2 none)⟩)
    ∧ (grantN w2Store 1 2 none 4).commendations.length =
        (grantN w2Store 1 2 none 3).commendations.length + 1
    ∧ countOf (grantN w2Store 1 2 none 4) 1 = some (3 + 1) :=
  commendation_grant_counts w2Store 1 2 none (by decide) (by decide) (by decide)
    (by decide) 3

/-- C10: the grant is not atomic at the API boundary — when the insert
succeeds and the counter update then fails, the handler responds 500 with
the error while the inserted commendation row stays in the store. -/
theorem commendation_grant_not_atomic (st : Store) (bid level : Nat)
    (notes : Option String) (row : Commendation) (st1 : Store) (msg : String)
    (h : insertCommendation st bid level notes = Except.ok (row, st1)) :
    postCommendation st bid level notes none (some msg) =
      (st1, HandlerOutcome.responded ⟨500, RespBody.errObj msg⟩)
    ∧ row ∈ st1.commendations := by
  constructor
  · simp [postCommendation, runQuery, h]
  · unfold insertCommendation at h
    split at h
    · split at h
      · injection h with h2
        injection h2 with hr hs
        subst hr
        subst hs
        simp
      · simp at h
    · simp at h

/-- C10 witness: a grant against the one-operative store whose counter
update fails with a connection loss. -/
theorem commendation_grant_not_atomic_witness :
    postCommendation w2Store 1 2 none none (some "connection lost") =
      (w10Store, HandlerOutcome.responded ⟨500, RespBody.errObj "connection lost"⟩)
    ∧ w10Row ∈ w10Store.commendations :=
  commendation_grant_not_atomic w2Store 1 2 none w10Row w10Store "connection lost" rfl

/-- The shared try/catch never lets an exception escape. -/
theorem isCrash_tryCatchSt (st : Store) (act : Except String (α × Store))
    (respond : α → HttpResp β) : isCrash (tryCatchSt st act respond).2 = false := by
  rcases act with m | ⟨a, s1⟩
  · rfl
  · rfl

/-- Neither of the grant's two statements can crash the handler. -/
theorem isCrash_postCommendation (st : Store) (bid level : Nat)
    (notes : Option String) (f1 f2 : Option String) :
    isCrash (postCommendation st bid level notes f1 f2).2 = false := by
  unfold postCommendation
  cases hq : runQuery f1 (insertCommendation st bid level notes) with
  | error m => rfl
  | ok v =>
    obtain ⟨row, s1⟩ := v
    cases f2 with
    | none => rfl
    | some m2 => rfl

/-- The legacy list handler never lets an exception escape. -/
theorem isCrash_legacyList (rows : List LegacyOperative) (f : Option String) :
    isCrash (legacyGetBattleList rows f) = false := by
  cases f <;> rfl

/-- C8 counterexample: the root health-check handler catches a store failure
but reports it with HTTP 200 and a body flag, not with an HTTP 500 error
response. -/
theorem health_store_failure_not_500 :
    (healthHandler (some "connection terminated")).status = 200
    ∧ (healthHandler (some "connection terminated")).db = false
    ∧ (healthHandler (some "connection terminated")).error = some "connection terminated"
    ∧ ¬ (healthHandler (some "connection terminated")).status = 500 :=
  ⟨rfl, rfl, rfl, by decide⟩

/-- C8 amended: every resource handler converts any store failure into an
HTTP 500 response carrying the error message (a fixed message in the legacy
variant) while leaving the store as the failed statement left it, no store
failure escapes a handler, and requests are handled independently — each
response in a batch depends only on its own request.  The root health-check
handler is the exception: it reports a store failure with HTTP 200. -/
theorem resource_handlers_fail_500 :
    (∀ st m, getBattleList st (some m) =
      (st, HandlerOutcome.responded ⟨500, RespBody.errObj m⟩))
    ∧ (∀ st i m, getBattleById st i (some m) =
      (st, HandlerOutcome.responded ⟨500, RespBody.errObj m⟩))
    ∧ (∀ st b m, postBattle st b (some m) =
      (st, HandlerOutcome.responded ⟨500, RespBody.errObj m⟩))
    ∧ (∀ st i b m, putBattle st i b (some m) =
      (st, HandlerOutcome.responded ⟨500, RespBody.errObj m⟩))
    ∧ (∀ st i m, deleteBattle st i (some m) =
      (st, HandlerOutcome.responded ⟨500, RespBody.errObj m⟩))
    ∧ (∀ st m, getCatalog st (some m) =
      (st, HandlerOutcome.responded ⟨500, RespBody.errObj m⟩))
    ∧ (∀ st cb m, postCatalog st cb (some m) =
      (st, HandlerOutcome.responded ⟨500, RespBody.errObj m⟩))
    ∧ (∀ st bid ab m, postAward st bid ab (some m) =
      (st, HandlerOutcome.responded ⟨500, RespBody.errObj m⟩))
    ∧ (∀ st bid m, getAwardsFor st bid (some m) =
      (st, HandlerOutcome.responded ⟨500, RespBody.errObj m⟩))
    ∧ (∀ st bid rb m, postRankChange st bid rb (some m) =
      (st, HandlerOutcome.responded ⟨500, RespBody.errObj m⟩))
    ∧ (∀ st bid level notes m, postCommendation st bid level notes (some m) none =
      (st, HandlerOutcome.responded ⟨500, RespBody.errObj m⟩))
    ∧ (∀ lrows m, legacyGetBattleList lrows (some m) =
      HandlerOutcome.responded ⟨500, RespBody.errObj "Chyba při načítání dat"⟩)
    ∧ (∀ st f, isCrash (getBattleList st f).2 = false)
    ∧ (∀ st i f, isCrash (getBattleById st i f).2 = false)
    ∧ (∀ st b f, isCrash (postBattle st b f).2 = false)
    ∧ (∀ st i b f, isCrash (putBattle st i b f).2 = false)
    ∧ (∀ st i f, isCrash (deleteBattle st i f).2 = false)
    ∧ (∀ st f, isCrash (getCatalog st f).2 = false)
    ∧ (∀ st cb f, isCrash (postCatalog st cb f).2 = false)
    ∧ (∀ st bid ab f, isCrash (postAward st bid ab f).2 = false)
    ∧ (∀ st bid f, isCrash (getAwardsFor st bid f).2 = false)
    ∧ (∀ st bid rb f, isCrash (postRankChange st bid rb f).2 = false)
    ∧ (∀ st bid level notes f1 f2,
        isCrash (postCommendation st bid level notes f1 f2).2 = false)
    ∧ (∀ lrows f, isCrash (legacyGetBattleList lrows f) = false)
    ∧ (∀ (st : Store) (reqs : List (Nat × Option String)) (j : Nat),
        (processGetRequests st reqs)[j]? =
          (reqs[j]?).map fun q => (getBattleById st q.1 q.2).2) := by
  refine ⟨fun st m => rfl, fun st i m => rfl, fun st b m => rfl, fun st i b m => rfl,
    fun st i m => rfl, fun st m => rfl, fun st cb m => rfl, fun st bid ab m => rfl,
    fun st bid m => rfl, fun st bid rb m => rfl, fun st bid level notes m => rfl,
    fun lrows m => rfl,
    fun st f => isCrash_tryCatchSt _ _ _, fun st i f => isCrash_tryCatchSt _ _ _,
    fun st b f => isCrash_tryCatchSt _ _ _, fun st i b f => isCrash_tryCatchSt _ _ _,
    fun st i f => isCrash_tryCatchSt _ _ _, fun st f => isCrash_tryCatchSt _ _ _,
    fun st cb f => isCrash_tryCatchSt _ _ _, fun st bid ab f => isCrash_tryCatchSt _ _ _,
    fun st bid f => isCrash_tryCatchSt _ _ _, fun st bid rb f => isCrash_tryCatchSt _ _ _,
    fun st bid level notes f1 f2 => isCrash_postCommendation st bid level notes f1 f2,
    fun lrows f => isCrash_legacyList lrows f, ?_⟩
  intro st reqs j
  simp [processGetRequests, List.getElem?_map]

end BattleDB
